import Mathlib

/-!
Shallow embedding of the Twitchify `HTTPClient` (twitch/http.py).

Network effects are modelled by passing in the outcomes the transport /
identity provider would produce (as explicit oracle arguments), and the
observable effects of each method (sleeps performed, events dispatched,
headers updated, bodies printed) are returned as data.  Each definition is
a direct translation of the corresponding method of `HTTPClient`.
-/

namespace Twitchify

/-- The error classes of twitch/errors.py exactly as http.py raises them:
bare `BadRequest`, `Unauthorized`/`Forbidden` with an optional message,
bare `NotFound`/`TwitchServerError`/`UnknownError`/`HTTPException`, and
`SubscriptionError` carrying the subscription name and version
(http.py line 375). -/
inductive Err where
  | badRequest
  | unauthorized (message : Option String)
  | forbidden (message : Option String)
  | notFound
  | twitchServerError
  | unknownError
  | httpException
  | subscriptionError (subscription : String) (version : String)
deriving DecidableEq, Repr

/-- Catch test for `except Unauthorized`: matches any message. -/
def Err.isUnauthorized : Err → Bool
  | .unauthorized _ => true
  | _ => false

/-- Catch test for `except BadRequest`. -/
def Err.isBadRequest : Err → Bool
  | .badRequest => true
  | _ => false

/-- Catch test for `except Forbidden`: matches any message. -/
def Err.isForbidden : Err → Bool
  | .forbidden _ => true
  | _ => false

/-- Catch test for `except NotFound`. -/
def Err.isNotFound : Err → Bool
  | .notFound => true
  | _ => false

/-- The status-code classification chain of `HTTPClient._request`
(http.py lines 198-212).  Returns the result of the request together with the
body printed to standard output (the 400 branch prints the response body
before raising `BadRequest`). -/
def classify (status : Nat) (body : α) : Except Err α × Option α :=
  if status = 200 ∨ status = 202 then (.ok body, none)
  else if status = 400 then (.error .badRequest, some body)
  else if status = 401 then (.error (.unauthorized none), none)
  else if status = 403 then (.error (.forbidden none), none)
  else if status = 404 then (.error .notFound, none)
  else if 500 ≤ status ∧ status < 600 then (.error .twitchServerError, none)
  else (.error .unknownError, none)

instance {ε α : Type} [DecidableEq ε] [DecidableEq α] : DecidableEq (Except ε α) := fun x y =>
  match x, y with
  | .ok a, .ok b =>
    if h : a = b then .isTrue (congrArg Except.ok h)
    else .isFalse (fun hh => h (Except.ok.inj hh))
  | .error a, .error b =>
    if h : a = b then .isTrue (congrArg Except.error h)
    else .isFalse (fun hh => h (Except.error.inj hh))
  | .ok _, .error _ => .isFalse (fun hh => Except.noConfusion hh)
  | .error _, .ok _ => .isFalse (fun hh => Except.noConfusion hh)

/-- Outcome of one transport-level attempt of `self.__session.request`:
either an `OSError` or an HTTP response with a status and a parsed body. -/
inductive Transport (α : Type) where
  | osError
  | resp (status : Nat) (body : α)
deriving DecidableEq, Repr

/-- Observable outcome of `HTTPClient._request`: the returned value or the
raised error, the body printed to stdout (400 branch), and the list of
back-off sleeps performed (in seconds). -/
structure BaseOut (α : Type) where
  result : Except Err α
  printed : Option α
  sleeps : List Nat
deriving DecidableEq, Repr

/-- Model of `HTTPClient._request` (http.py lines 179-219): `for retry_count in
range(1, 4)` makes up to three transport attempts; an `OSError` on attempt
`i` is followed by `sleep(5 * i)` (the guard `3 >= retry_count` is always
true); a received response is classified and never retried; after the
third `OSError` the for-else raises `HTTPException`.  `att i` is the
outcome of the `i`-th attempt. -/
def _request (att : Nat → Transport α) : BaseOut α :=
  match att 1 with
  | .resp s b => ⟨(classify s b).1, (classify s b).2, []⟩
  | .osError =>
    match att 2 with
    | .resp s b => ⟨(classify s b).1, (classify s b).2, [5]⟩
    | .osError =>
      match att 3 with
      | .resp s b => ⟨(classify s b).1, (classify s b).2, [5, 10]⟩
      | .osError => ⟨.error .httpException, none, [5, 10, 15]⟩

/-- The classification chain never produces `HTTPException`; that error
arises only from exhausting the transport retries. -/
theorem classify_ne_httpException (status : Nat) (b : α) :
    (classify status b).1 ≠ .error .httpException := by
  unfold classify
  split_ifs <;> simp

/-- Model of `HTTPClient.request` (http.py lines 310-335), the outer wrapper: a
`while True` loop around `_request`.  `reqs` lists the successive outcomes
of the inner `_request` calls, `vals` the successive outcomes of the
`_validate_token(generate=True)` calls made after an `Unauthorized`.  The
bare `raise` in the inner `except (Unauthorized, BadRequest)` re-raises
the exception the inner handler caught, i.e. the failure raised by the
validation itself;
any other exception from the validation propagates uncaught as well, so
every validation failure surfaces as itself.  `none` means the supplied
trace ended before the loop did. -/
def request (reqs : List (Except Err α)) (vals : List (Except Err Unit)) :
    Option (Except Err α) :=
  match reqs with
  | [] => none
  | r :: rtail =>
    match r with
    | .ok b => some (.ok b)
    | .error e =>
      if e.isUnauthorized then
        match vals with
        | [] => none
        | v :: vtail =>
          match v with
          | .ok _ => request rtail vtail
          | .error ve => some (.error ve)
      else some (.error e)

/-- Outcome of one `_generate_token()` call as seen by a caller: it either
returned normally (with a refresh payload or `None`) or raised. -/
inductive GenOutcome where
  | returned
  | raised (e : Err)
deriving DecidableEq, Repr

/-- Model of `HTTPClient._validate_token` (http.py lines 246-270): a `while True`
loop; a successful `_request` on the validate endpoint returns its body;
on `Unauthorized`, when `generate` is true and both `_client_secret` and
`_refresh_token` are set, `_generate_token()` is attempted —
`BadRequest`/`Forbidden` from it raise `Unauthorized` with the message
about an invalid refresh token or client secret, any other exception
propagates, and a normal return loops back to re-validate; otherwise the
caught `Unauthorized` is re-raised unchanged.  `reqs` lists the outcomes
of the validation-endpoint `_request` calls, `gens` the outcomes of the
`_generate_token()` calls. -/
def _validate_token (generate hasSecret hasRefresh : Bool)
    (reqs : List (Except Err α)) (gens : List GenOutcome) :
    Option (Except Err α) :=
  match reqs with
  | [] => none
  | r :: rtail =>
    match r with
    | .ok v => some (.ok v)
    | .error e =>
      if e.isUnauthorized then
        if generate ∧ hasSecret ∧ hasRefresh then
          match gens with
          | [] => none
          | g :: gtail =>
            match g with
            | .returned => _validate_token generate hasSecret hasRefresh rtail gtail
            | .raised ge =>
              if ge.isBadRequest ∨ ge.isForbidden then
                some (.error (.unauthorized
                  (some "Invalid refresh token or client secret.")))
              else some (.error ge)
        else some (.error e)
      else some (.error e)

/-- The body returned by the token endpoint of the identity provider on a
refresh-token grant (the fields http.py reads). -/
structure Refresh where
  access_token : String
  refresh_token : String
deriving DecidableEq, Repr

/-- The credential state `_generate_token` consults: `self._refresh_token`,
`self._client_secret`, and whether `self._session_lock` is currently held. -/
structure GenState where
  refresh_token : Option String
  client_secret : Option String
  session_lock_held : Bool
deriving DecidableEq, Repr

/-- Observable effects of one `_generate_token` call: whether the token
exchange with the identity provider was performed, the new value written
into the Authorization header of the session (if any), and the events
dispatched. -/
structure GenEffects where
  exchanged : Bool
  authHeader : Option String
  dispatched : List (String × String)
deriving DecidableEq, Repr

/-- Model of `HTTPClient._generate_token` (http.py lines 221-244): only when both
`_refresh_token` and `_client_secret` are set and `_session_lock` is not
already held does it perform the refresh-token exchange (`exchange` is the
outcome the provider would give); on success it sets the session
Authorization header to the new bearer token, dispatches
`refresh_token` with the new access token, and returns the payload; in
every skip case it returns `None` with no effects. -/
def _generate_token (st : GenState) (exchange : Except Err Refresh) :
    GenEffects × Except Err (Option Refresh) :=
  if st.refresh_token.isSome ∧ st.client_secret.isSome then
    if st.session_lock_held then (⟨false, none, []⟩, .ok none)
    else
      match exchange with
      | .error e => (⟨true, none, []⟩, .error e)
      | .ok r =>
        (⟨true, some ("Bearer " ++ r.access_token),
          [("refresh_token", r.access_token)]⟩, .ok (some r))
  else (⟨false, none, []⟩, .ok none)

/-- The fields of the validation-endpoint response that http.py reads. -/
structure Validate where
  expires_in : Int
deriving DecidableEq, Repr

/-- Model of `HTTPClient.open_session` (http.py lines 135-161) after the initial
validation has returned: line 149 stores `refresh_token`; when
`expires_in == 0` the branch only logs (a warning is emitted when the
stored token is not `None` — nothing assigns to `self._refresh_token`);
otherwise line 159 re-assigns the same `refresh_token`.  Returns the
stored refresh token after the call and whether the removal warning was
logged. -/
def open_session (refresh_token : Option String) (validation : Validate) :
    Option String × Bool :=
  if validation.expires_in = 0 then
    (refresh_token, refresh_token.isSome)
  else
    (refresh_token, false)

/-- Model of `HTTPClient.Refresher` (http.py lines 272-308), unrolled over a finite
trace.  Time is explicit: each `sleep` advances the clock by the slept
amount and the requests are treated as instantaneous, matching the
bookkeeping the source does with `time()`.  When the credentials are
present the initial `expires_in` comes from the caller; otherwise it is
reset to
`3540 + 300`.  Each loop iteration sleeps `min(expires_in - 300, 3540)`,
then, when the elapsed time reaches `expires_in - 300`, resets
`start_time` and calls `_generate_token` (whose provider outcome is the
first trace component of the iteration); it then re-validates (second trace
component) and overwrites `expires_in` with the reported value.  A
`BadRequest` from either call clears `_refresh_token` and continues; any
other exception escapes the task.  Returns the list of sleeps performed
and the number of token exchanges executed. -/
def refresherLoop (secret rt : Option String) (startTime now expiresIn : Int)
    (trace : List (Except Err Refresh × Except Err Int)) : List Int × Nat :=
  match trace with
  | [] => ([], 0)
  | (ex, v) :: rest =>
    let s := min (expiresIn - 300) 3540
    let t := now + s
    if t - startTime ≥ expiresIn - 300 then
      let g := _generate_token ⟨rt, secret, false⟩ ex
      let c := if g.1.exchanged then 1 else 0
      match g.2 with
      | .error e =>
        if e.isBadRequest then
          let r := refresherLoop secret none t t expiresIn rest
          (s :: r.1, c + r.2)
        else ([s], c)
      | .ok _ =>
        match v with
        | .ok n =>
          let r := refresherLoop secret rt t t n rest
          (s :: r.1, c + r.2)
        | .error e =>
          if e.isBadRequest then
            let r := refresherLoop secret none t t expiresIn rest
            (s :: r.1, c + r.2)
          else ([s], c)
    else
      match v with
      | .ok n =>
        let r := refresherLoop secret rt startTime t n rest
        (s :: r.1, r.2)
      | .error e =>
        if e.isBadRequest then
          let r := refresherLoop secret none startTime t expiresIn rest
          (s :: r.1, r.2)
        else ([s], 0)

/-- Model of `HTTPClient.Refresher` including its prologue (http.py lines
279-287): with a refresh token and client secret the given `expires_in` is
kept,
otherwise it is set to the default `3540 + 300`. -/
def Refresher (secret rt : Option String) (expires_in : Int)
    (trace : List (Except Err Refresh × Except Err Int)) : List Int × Nat :=
  if rt.isSome ∧ secret.isSome then
    refresherLoop secret rt 0 0 expires_in trace
  else
    refresherLoop secret rt 0 0 (3540 + 300) trace

/-- One entry of the `subscriptions` argument of `subscribe`. -/
structure Sub where
  name : String
  version : String
deriving DecidableEq, Repr

/-- Observable outcome of `HTTPClient.subscribe`: the subscriptions whose
submission request was actually issued, the result of the call, and whether the
`ready` event was dispatched. -/
structure SubscribeOut where
  attempted : List Sub
  result : Except Err Unit
  ready : Bool
deriving DecidableEq, Repr

/-- Model of `HTTPClient.subscribe` (http.py lines 337-377): iterates over the
subscriptions, issuing one request each (the per-subscription provider
outcome is paired with the subscription).  `except Forbidden` raises a new
`Forbidden` naming the subscription; `except BadRequest` raises
`SubscriptionError` with the subscription name and version; any raise
leaves the `for` loop, so the remaining subscriptions are not submitted
and the final dispatch of the `ready` event on line 377 does not run. -/
def subscribe (subs : List (Sub × Except Err Unit)) : SubscribeOut :=
  match subs with
  | [] => ⟨[], .ok (), true⟩
  | (sub, o) :: rest =>
    match o with
    | .ok _ =>
      let r := subscribe rest
      ⟨sub :: r.attempted, r.result, r.ready⟩
    | .error e =>
      if e.isForbidden then
        ⟨[sub], .error (.forbidden (some ("Subscription `" ++ sub.name ++
          "` is missing proper authorization"))), false⟩
      else if e.isBadRequest then
        ⟨[sub], .error (.subscriptionError sub.name sub.version), false⟩
      else
        ⟨[sub], .error e, false⟩

/-- The list envelope around every helix response body: a record whose
data field holds a list. -/
structure Envelope (β : Type) where
  data : List β
deriving DecidableEq, Repr

/-- Result classes observable from the thin endpoint accessors: an error
of the typed library taxonomy, or the untyped `IndexError` that Python
raises when the first-element subscript hits an empty list. -/
inductive PyErr where
  | typed (e : Err)
  | indexError
deriving DecidableEq, Repr

/-- Whether an endpoint failure belongs to the typed taxonomy. -/
def PyErr.isTyped : PyErr → Bool
  | .typed _ => true
  | .indexError => false

/-- Model of `HTTPClient.get_client` (http.py lines 379-384): one pipeline
call, then the first-element subscript on the enveloped data list.  A
pipeline error propagates typed; an empty
`data` list makes the subscript raise an untyped `IndexError`. -/
def get_client (resp : Except Err (Envelope β)) : Except PyErr β :=
  match resp with
  | .error e => .error (.typed e)
  | .ok env =>
    match env.data with
    | [] => .error .indexError
    | x :: _ => .ok x

/-- Model of `HTTPClient.get_channel` (http.py lines 386-392): same shape as
`get_client`, on the channels route for `broadcaster_id`. -/
def get_channel (broadcaster_id : String) (resp : Except Err (Envelope β)) :
    Except PyErr β :=
  match resp with
  | .error e => .error (.typed e)
  | .ok env =>
    match env.data with
    | [] => .error .indexError
    | x :: _ => .ok x

/-- Model of `HTTPClient.get_stream` (http.py lines 394-405): the
`except NotFound` handler turns `NotFound` into `None`; a successful body
yields the first element of the data list only when that list has length
exactly one, and `None` otherwise; other pipeline errors propagate. -/
def get_stream (user_id : String) (resp : Except Err (Envelope β)) :
    Except Err (Option β) :=
  match resp with
  | .error e => if e.isNotFound then .ok none else .error e
  | .ok env =>
    match env.data with
    | [x] => .ok (some x)
    | _ => .ok none

/-- Claim C3: a single pipeline request returns the parsed body exactly
when the status is 200 or 202; otherwise it fails BadRequest on 400 with
the response body surfaced (printed), Unauthorized on 401, Forbidden on
403, NotFound on 404, the transient server error on every 500-599, and
UnknownError on any other status. -/
theorem status_classification (status : Nat) (b : α) :
    ((_request (fun _ => Transport.resp status b)).result = .ok b ↔
      (status = 200 ∨ status = 202))
    ∧ (status = 400 → _request (fun _ => Transport.resp status b) =
        ⟨.error .badRequest, some b, []⟩)
    ∧ (status = 401 → _request (fun _ => Transport.resp status b) =
        ⟨.error (.unauthorized none), none, []⟩)
    ∧ (status = 403 → _request (fun _ => Transport.resp status b) =
        ⟨.error (.forbidden none), none, []⟩)
    ∧ (status = 404 → _request (fun _ => Transport.resp status b) =
        ⟨.error .notFound, none, []⟩)
    ∧ (500 ≤ status → status < 600 → _request (fun _ => Transport.resp status b) =
        ⟨.error .twitchServerError, none, []⟩)
    ∧ (status ≠ 200 → status ≠ 202 → status ≠ 400 → status ≠ 401 →
        status ≠ 403 → status ≠ 404 → ¬(500 ≤ status ∧ status < 600) →
        _request (fun _ => Transport.resp status b) =
          ⟨.error .unknownError, none, []⟩) := by
  refine ⟨⟨fun h => ?_, fun h => ?_⟩, fun h => ?_, fun h => ?_, fun h => ?_,
    fun h => ?_, fun h1 h2 => ?_, fun h1 h2 h3 h4 h5 h6 h7 => ?_⟩
  · by_contra hne
    revert h
    simp only [_request, classify, if_neg hne]
    split_ifs <;> simp
  · simp [_request, classify, h]
  · subst h; rfl
  · subst h; rfl
  · subst h; rfl
  · subst h; rfl
  · have hne : ¬(status = 200 ∨ status = 202) := by omega
    have h400 : ¬(status = 400) := by omega
    have h401 : ¬(status = 401) := by omega
    have h403 : ¬(status = 403) := by omega
    have h404 : ¬(status = 404) := by omega
    simp [_request, classify, hne, h400, h401, h403, h404, h1, h2]
  · have hne : ¬(status = 200 ∨ status = 202) := by omega
    simp [_request, classify, hne, h3, h4, h5, h6, h7]

/-- Witness for C3 at the concrete status 400. -/
theorem status_classification_witness :
    _request (fun _ => Transport.resp 400 (7 : Nat)) =
      ⟨.error .badRequest, some 7, []⟩ :=
  (status_classification 400 7).2.1 rfl

/-- Claim C5: `_request` makes up to three transport attempts, sleeping
`5 * i` seconds after the `i`-th transport failure; `HTTPException` is
raised exactly when all three attempts fail at the transport level, and a
received response (hence every typed 4xx/5xx error) ends the loop at once
with no further attempt. -/
theorem transport_retry_policy (att : Nat → Transport α) :
    (att 1 = .osError → att 2 = .osError → att 3 = .osError →
      _request att = ⟨.error .httpException, none, [5, 10, 15]⟩)
    ∧ ((_request att).result = .error .httpException ↔
        (att 1 = .osError ∧ att 2 = .osError ∧ att 3 = .osError))
    ∧ (∀ s b, att 1 = .resp s b →
        _request att = ⟨(classify s b).1, (classify s b).2, []⟩)
    ∧ (∀ s b, att 1 = .osError → att 2 = .resp s b →
        _request att = ⟨(classify s b).1, (classify s b).2, [5]⟩)
    ∧ (∀ s b, att 1 = .osError → att 2 = .osError → att 3 = .resp s b →
        _request att = ⟨(classify s b).1, (classify s b).2, [5, 10]⟩) := by
  refine ⟨fun h1 h2 h3 => by simp [_request, h1, h2, h3], ⟨fun h => ?_,
    fun ⟨h1, h2, h3⟩ => by simp [_request, h1, h2, h3]⟩,
    fun s b h1 => by simp [_request, h1],
    fun s b h1 h2 => by simp [_request, h1, h2],
    fun s b h1 h2 h3 => by simp [_request, h1, h2, h3]⟩
  cases ha1 : att 1 with
  | resp s b =>
    rw [_request, ha1] at h
    exact absurd h (classify_ne_httpException s b)
  | osError =>
    cases ha2 : att 2 with
    | resp s b =>
      rw [_request, ha1, ha2] at h
      exact absurd h (classify_ne_httpException s b)
    | osError =>
      cases ha3 : att 3 with
      | resp s b =>
        rw [_request, ha1, ha2, ha3] at h
        exact absurd h (classify_ne_httpException s b)
      | osError => exact ⟨rfl, rfl, rfl⟩

/-- Witness for C5: three transport failures exhaust the retries. -/
theorem transport_retry_policy_witness :
    _request (fun _ => (Transport.osError : Transport Nat)) =
      ⟨.error .httpException, none, [5, 10, 15]⟩ :=
  (transport_retry_policy (fun _ => Transport.osError)).1 rfl rfl rfl

/-- Counterexample to claim C4: when the validation attempt fails with
`BadRequest`, the caller receives that `BadRequest` — not the original
`Unauthorized` the claim says propagates (the bare `raise` on http.py
line 335 re-raises the exception the inner handler caught). -/
theorem request_unauthorized_retry_counterexample :
    request (α := Nat) [.error (.unauthorized none)] [.error .badRequest] =
      some (.error .badRequest)
    ∧ Err.badRequest ≠ Err.unauthorized none := by
  exact ⟨rfl, by decide⟩

/-- Claim C4 (amended): each `Unauthorized` from the inner request
triggers exactly one validation-with-generation attempt; if the attempt
succeeds the request is retried (and a retried success is returned); if
the attempt fails, the failure of the validation itself propagates to the caller
— a `BadRequest` from validation surfaces as `BadRequest`, and the
`Unauthorized` that surfaces is the one from the validation, not necessarily the
original.  Errors other than `Unauthorized` propagate untouched. -/
theorem request_unauthorized_retry (b : α) (e ve : Err) (m : Option String)
    (reqs : List (Except Err α)) (vals : List (Except Err Unit)) :
    request (.ok b :: reqs) vals = some (.ok b)
    ∧ (e.isUnauthorized = false →
        request (.error e :: reqs) vals = some (.error e))
    ∧ request (.error (.unauthorized m) :: reqs) (.ok () :: vals) =
        request reqs vals
    ∧ request (.error (.unauthorized m) :: reqs) (.error ve :: vals) =
        some (.error ve) := by
  refine ⟨rfl, fun h => ?_, rfl, rfl⟩
  simp [request, h]

/-- Witness for the amended theorem of C4: a non-Unauthorized error
propagates untouched, and a 401 healed by a successful validation yields
the success of the retried request. -/
theorem request_unauthorized_retry_witness :
    request (α := Nat) [.error .notFound] [] = some (.error .notFound)
    ∧ request (α := Nat) [.error (.unauthorized none), .ok 5] [.ok ()] =
        some (.ok 5) := by
  refine ⟨(request_unauthorized_retry 0 Err.notFound Err.notFound none [] []).2.1 rfl, ?_⟩
  have h := (request_unauthorized_retry (5 : Nat) Err.notFound Err.notFound none
    [.ok 5] []).2.2.1
  simpa using h

/-- Claim C6: `_validate_token` with `generate=true` and both refresh
credentials present reacts to an `Unauthorized` with one
`_generate_token` attempt followed by a retried validation; a
`BadRequest`/`Forbidden` from the refresh becomes `Unauthorized` with the
descriptive invalid-refresh-token-or-client-secret message; with
`generate=false` or a missing credential the caught `Unauthorized`
re-raises unchanged. -/
theorem validate_token_regeneration (v : α) (ge : Err) (m : Option String)
    (generate hs hr : Bool)
    (reqs : List (Except Err α)) (gens : List GenOutcome) :
    _validate_token generate hs hr (.ok v :: reqs) gens = some (.ok v)
    ∧ _validate_token true true true (.error (.unauthorized m) :: reqs)
        (.returned :: gens) = _validate_token true true true reqs gens
    ∧ ((ge.isBadRequest = true ∨ ge.isForbidden = true) →
        _validate_token true true true (.error (.unauthorized m) :: reqs)
          (.raised ge :: gens) =
          some (.error (.unauthorized
            (some "Invalid refresh token or client secret."))))
    ∧ ((generate = false ∨ hs = false ∨ hr = false) →
        _validate_token generate hs hr (.error (.unauthorized m) :: reqs) gens
          = some (.error (.unauthorized m))) := by
  refine ⟨rfl, rfl, fun h => ?_, fun h => ?_⟩
  · rcases h with h | h <;> simp [_validate_token, Err.isUnauthorized, h]
  · rcases h with h | h | h <;> subst h <;>
      simp [_validate_token, Err.isUnauthorized]

/-- Witness for C6: a rejected refresh-token exchange surfaces as the
descriptive Unauthorized. -/
theorem validate_token_regeneration_witness :
    _validate_token (α := Nat) true true true
      [.error (.unauthorized none)] [.raised .badRequest] =
      some (.error (.unauthorized
        (some "Invalid refresh token or client secret."))) :=
  (validate_token_regeneration (0 : Nat) Err.badRequest none true true true
    [] []).2.2.1 (Or.inl rfl)

/-- Claim C7: `_generate_token` returns `None` without any token exchange
when the refresh token or client secret is absent or the session lock is
already held; otherwise it performs the exchange, rewrites the session
Authorization header to the new bearer token, dispatches `refresh_token`
with the new access token, and returns the refreshed pair. -/
theorem generate_token_behavior (rt cs : Option String) (lock : Bool)
    (r : Refresh) (ex : Except Err Refresh) :
    ((rt = none ∨ cs = none) →
      _generate_token ⟨rt, cs, lock⟩ ex = (⟨false, none, []⟩, .ok none))
    ∧ _generate_token ⟨rt, cs, true⟩ ex = (⟨false, none, []⟩, .ok none)
    ∧ (rt.isSome = true → cs.isSome = true →
        _generate_token ⟨rt, cs, false⟩ (.ok r) =
          (⟨true, some ("Bearer " ++ r.access_token),
            [("refresh_token", r.access_token)]⟩, .ok (some r))) := by
  refine ⟨fun h => ?_, ?_, fun h1 h2 => ?_⟩
  · rcases h with h | h <;> subst h <;> simp [_generate_token]
  · unfold _generate_token
    split_ifs with h1 h2
    · rfl
    · exact absurd rfl h2
    · rfl
  · simp [_generate_token, h1, h2]

/-- Witness for C7: a performed refresh updates the header and dispatches
the new access token. -/
theorem generate_token_behavior_witness :
    _generate_token ⟨some "rt", some "cs", false⟩ (.ok ⟨"at", "rt2"⟩) =
      (⟨true, some ("Bearer " ++ "at"), [("refresh_token", "at")]⟩,
        .ok (some ⟨"at", "rt2"⟩)) :=
  (generate_token_behavior (some "rt") (some "cs") false ⟨"at", "rt2"⟩
    (.ok ⟨"at", "rt2"⟩)).2.2 rfl rfl

/-- Counterexample to claim C1: with three subscriptions whose second is
rejected with BadRequest, the third is never attempted and `ready` is not
dispatched — the batch is aborted, contradicting the claim that siblings
continue and `ready` fires unconditionally. -/
theorem subscribe_batch_counterexample :
    subscribe [(⟨"a", "1"⟩, .ok ()), (⟨"b", "2"⟩, .error .badRequest),
      (⟨"c", "3"⟩, .ok ())] =
      ⟨[⟨"a", "1"⟩, ⟨"b", "2"⟩], .error (.subscriptionError "b" "2"), false⟩ := by
  decide

/-- Claim C1 (amended): submissions run in order until the first failure;
a BadRequest on one subscription raises a typed SubscriptionError carrying
the event name and version of that subscription but aborts the remaining
sibling submissions, a Forbidden re-raises naming the subscription and
likewise aborts the batch, and the `ready` notification is dispatched only
when every submission succeeds. -/
theorem subscribe_first_failure (pre rest : List (Sub × Except Err Unit))
    (s : Sub) (hpre : ∀ p ∈ pre, p.2 = .ok ()) :
    subscribe pre = ⟨pre.map Prod.fst, .ok (), true⟩
    ∧ subscribe (pre ++ (s, .error .badRequest) :: rest) =
        ⟨pre.map Prod.fst ++ [s],
          .error (.subscriptionError s.name s.version), false⟩
    ∧ subscribe (pre ++ (s, .error (.forbidden none)) :: rest) =
        ⟨pre.map Prod.fst ++ [s],
          .error (.forbidden (some ("Subscription `" ++ s.name ++
            "` is missing proper authorization"))), false⟩ := by
  induction pre with
  | nil =>
    refine ⟨rfl, ?_, ?_⟩ <;> simp [subscribe, Err.isForbidden, Err.isBadRequest]
  | cons p ps ih =>
    obtain ⟨sub, o⟩ := p
    have ho : o = Except.ok () := hpre (sub, o) (List.mem_cons_self _ _)
    subst ho
    have ih2 := ih (fun q hq => hpre q (List.mem_cons_of_mem _ hq))
    refine ⟨?_, ?_, ?_⟩ <;>
      simp [subscribe, ih2.1, ih2.2.1, ih2.2.2]

/-- Witness for the amended theorem of C1: an all-ok prefix of one
subscription followed by a BadRequest aborts with the SubscriptionError. -/
theorem subscribe_first_failure_witness :
    subscribe [(⟨"a", "1"⟩, .ok ()), (⟨"b", "2"⟩, .error .badRequest)] =
      ⟨[⟨"a", "1"⟩, ⟨"b", "2"⟩], .error (.subscriptionError "b" "2"), false⟩ :=
  (subscribe_first_failure [(⟨"a", "1"⟩, .ok ())] [] ⟨"b", "2"⟩
    (by decide)).2.1

/-- Claim C2 is the intent but the code drops it (code bug): after
`open_session` sees `expires_in == 0` it logs that the refresh token "has
been removed", yet `self._refresh_token` is never assigned, so the token
is retained and a later `_generate_token` (with a client secret present)
still performs the network token exchange. -/
theorem open_session_keeps_refresh_token :
    open_session (some "rt") ⟨0⟩ = (some "rt", true)
    ∧ (_generate_token ⟨some "rt", some "secret", false⟩
        (.ok ⟨"new", "rt2"⟩)).1.exchanged = true := by
  exact ⟨rfl, rfl⟩

/-- Counterexample to claim C9: a successful response whose `data` list is
empty makes `get_client` fail with the untyped Python IndexError, which is
not part of the typed error taxonomy. -/
theorem endpoints_untyped_counterexample :
    get_client (.ok (⟨[]⟩ : Envelope Nat)) = .error .indexError
    ∧ PyErr.indexError.isTyped = false := by
  exact ⟨rfl, rfl⟩

/-- Claim C9 (amended): `get_client` and `get_channel` return the first
element of a nonempty `data` list and propagate pipeline failures typed,
but a successful response with an empty `data` list fails with an untyped
IndexError from the `data[0]` subscript. -/
theorem endpoints_data_unwrap (e : Err) (x : β) (xs : List β) (bid : String) :
    get_client (.error e) = (.error (.typed e) : Except PyErr β)
    ∧ get_client (.ok ⟨x :: xs⟩) = .ok x
    ∧ get_client (.ok (⟨[]⟩ : Envelope β)) = .error .indexError
    ∧ get_channel bid (.error e) = (.error (.typed e) : Except PyErr β)
    ∧ get_channel bid (.ok ⟨x :: xs⟩) = .ok x
    ∧ get_channel bid (.ok (⟨[]⟩ : Envelope β)) = .error .indexError := by
  exact ⟨rfl, rfl, rfl, rfl, rfl, rfl⟩

/-- Claim C10: `get_stream` returns `None` when the pipeline fails with
NotFound (which never reaches the caller), and on a successful response it
returns the stream only when the `data` list has exactly one element —
an empty list or two or more elements yield `None`, never an error. -/
theorem get_stream_spec (uid : String) (e : Err) (env : Envelope β) (x : β) :
    get_stream uid (.error .notFound) = (.ok none : Except Err (Option β))
    ∧ (e.isNotFound = false →
        get_stream uid (.error e) = (.error e : Except Err (Option β)))
    ∧ (env.data.length ≠ 1 → get_stream uid (.ok env) = .ok none)
    ∧ get_stream uid (.ok ⟨[x]⟩) = .ok (some x) := by
  refine ⟨rfl, fun h => ?_, fun h => ?_, rfl⟩
  · simp [get_stream, h]
  · obtain ⟨d⟩ := env
    match d with
    | [] => rfl
    | [y] => simp at h
    | y :: z :: tl => rfl

/-- Witness for C10: NotFound and a two-element list both yield `None`,
whereas a Forbidden propagates. -/
theorem get_stream_spec_witness :
    get_stream "1" (.ok (⟨[4, 5]⟩ : Envelope Nat)) = .ok none
    ∧ get_stream "1" (.error (.forbidden none)) =
        (.error (.forbidden none) : Except Err (Option Nat)) := by
  exact ⟨(get_stream_spec "1" Err.notFound ⟨[4, 5]⟩ 0).2.2.1 (by decide),
    (get_stream_spec "1" (Err.forbidden none) ⟨[]⟩ 0).2.1 rfl⟩

/-- On any nonempty trace, the next sleep of the refresher is always
`min(expires_in - 300, 3540)` for the current `expires_in`. -/
theorem refresherLoop_head (secret rt : Option String) (st now e : Int)
    (hd : Except Err Refresh × Except Err Int)
    (tl : List (Except Err Refresh × Except Err Int)) :
    (refresherLoop secret rt st now e (hd :: tl)).1.head? =
      some (min (e - 300) 3540) := by
  obtain ⟨ex, v⟩ := hd
  simp only [refresherLoop]
  by_cases h : (now + min (e - 300) 3540) - st ≥ e - 300
  · simp only [if_pos h]
    cases hg : (_generate_token ⟨rt, secret, false⟩ ex).2 with
    | error er => by_cases hb : er.isBadRequest <;> simp [hg, hb]
    | ok x =>
      cases v with
      | ok n => simp [hg]
      | error er => by_cases hb : er.isBadRequest <;> simp [hg, hb]
  · simp only [if_neg h]
    cases v with
    | ok n => simp
    | error er => by_cases hb : er.isBadRequest <;> simp [hb]

/-- Counterexample to claim C8: with both credentials absent and the
provider reporting `expires_in = 1000` on re-validation, the second sleep
is `min(1000 - 300, 3540) = 700` — a provider-derived interval, not the
fixed `3540`-second one the claim says is always used. -/
theorem refresher_fixed_interval_counterexample :
    Refresher none none 0
      [(.ok ⟨"a", "b"⟩, .ok 1000), (.ok ⟨"a", "b"⟩, .ok 1000)] =
      ([3540, 700], 0)
    ∧ (700 : Int) ≠ 3540 ∧ (700 : Int) = min (1000 - 300) 3540 := by
  refine ⟨by decide, by decide, by decide⟩

/-- Claim C8 (amended): with refresh token and client secret both absent
the loop never performs a token exchange, and its first sleep is the
fixed `min(3540 + 300 - 300, 3540) = 3540` default; but each iteration
re-validates and adopts the provider-reported `expires_in`, so every
subsequent sleep is the provider-derived `min(expires_in - 300, 3540)`,
not the fixed default. -/
theorem refresher_no_creds (e0 startTime now expiresIn n : Int)
    (ex1 : Except Err Refresh)
    (trace tl : List (Except Err Refresh × Except Err Int)) :
    (refresherLoop none none startTime now expiresIn trace).2 = 0
    ∧ (Refresher none none e0 ((ex1, .ok n) :: tl)).1 =
        3540 :: (refresherLoop none none 3540 3540 n tl).1
    ∧ (∀ hd tl2, (refresherLoop none none 3540 3540 n (hd :: tl2)).1.head? =
        some (min (n - 300) 3540)) := by
  refine ⟨?_, ?_, fun hd tl2 => refresherLoop_head none none 3540 3540 n hd tl2⟩
  · induction trace generalizing startTime now expiresIn with
    | nil => simp [refresherLoop]
    | cons hd tl ih =>
      obtain ⟨ex, v⟩ := hd
      cases v with
      | ok m =>
        by_cases h : (now + min (expiresIn - 300) 3540) - startTime ≥
            expiresIn - 300 <;>
          simp [refresherLoop, _generate_token, h, ih]
      | error er =>
        by_cases h : (now + min (expiresIn - 300) 3540) - startTime ≥
            expiresIn - 300 <;>
          by_cases hb : er.isBadRequest <;>
          simp [refresherLoop, _generate_token, h, hb, ih]
  · have harith : (0 : Int) + min (3540 + 300 - 300) 3540 - 0 ≥
        3540 + 300 - 300 := by norm_num
    simp [Refresher, refresherLoop, _generate_token, harith]

end Twitchify
